import Mathlib

/-!
A shallow embedding of the fycus figure-management library
(src/fycus/fycus.py and src/fycus/config.py).

Filesystem paths are modelled as an absolute-flag together with a list of
components, mirroring pathlib's `Path` and its `/` join for plain-segment
names.  The filesystem is a state record: the current working directory,
the set of existing directories, the state of the single configuration
file at the platform config location, and the config directory path.
Figure sizes are modelled over the rationals.  The matplotlib boundary is
modelled by a current-figure size and, for `savefig`, by a record of the
arguments the export call receives.
-/

/-- A filesystem path: whether it is absolute, and its components.
Mirrors pathlib `Path`; `Path(b) / s` for a plain segment `s` appends
one component. -/
structure FPath where
  isAbs : Bool
  parts : List String
deriving DecidableEq

/-- `p / s` for a plain (separator-free) segment `s`, as in
`base_path / name` and `self.save_dir / filename`. -/
def FPath.child (p : FPath) (s : String) : FPath :=
  ⟨p.isAbs, p.parts ++ [s]⟩

/-- All prefixes of a path, from the root piece up to the path itself:
the directories `mkdir(parents=True)` guarantees to exist. -/
def FPath.ancestors (p : FPath) : List FPath :=
  (List.range (p.parts.length + 1)).map (fun n => ⟨p.isAbs, p.parts.take n⟩)

/-- The parsed configuration document: the one recognised key
`base_path` (already parsed into a path, as `Path(config['base_path'])`
does), plus any other keys the YAML document holds. -/
structure ConfigDoc where
  base_path : Option FPath
  extra : List (String × String)
deriving DecidableEq

/-- The empty mapping `{}` returned on every load failure. -/
def ConfigDoc.empty : ConfigDoc := ⟨none, []⟩

/-- The state of the file at `get_config_path()`: absent, present but
the open/read raises, present but the YAML parse raises (or yields a
non-mapping), or present and parsed into a document. -/
inductive ConfigFileState where
  | absent
  | unreadable
  | malformed
  | parsed (doc : ConfigDoc)
deriving DecidableEq

/-- The filesystem state the library touches: the working directory of
the process, the directories that exist, the configuration file, and
the platform configuration directory `get_config_dir()` returns. -/
structure FS where
  cwd : FPath
  dirs : List FPath
  configFile : ConfigFileState
  configDir : FPath
deriving DecidableEq

/-- Resolve a path against the working directory, as the OS does when a
relative path is handed to `exists()` or `mkdir()`. -/
def FS.resolve (fs : FS) (p : FPath) : FPath :=
  if p.isAbs then p else ⟨fs.cwd.isAbs, fs.cwd.parts ++ p.parts⟩

/-- `Path.exists()`: membership of the resolved path among the existing
directories. -/
def FS.pathExists (fs : FS) (p : FPath) : Bool :=
  decide (fs.resolve p ∈ fs.dirs)

/-- `p.mkdir(parents=True, exist_ok=True)`: afterwards the path and all
its prefixes exist; never an error. -/
def FS.mkdirParents (fs : FS) (p : FPath) : FS :=
  { fs with dirs := fs.dirs ++ (fs.resolve p).ancestors }

/-- `load_config()` from src/fycus/config.py: empty mapping when the
file is absent, when reading or parsing raises, or when the document
holds a `base_path` that does not exist on disk; otherwise the parsed
document. -/
def load_config (fs : FS) : ConfigDoc :=
  match fs.configFile with
  | .absent => ConfigDoc.empty
  | .unreadable => ConfigDoc.empty
  | .malformed => ConfigDoc.empty
  | .parsed doc =>
    match doc.base_path with
    | some p => if fs.pathExists p then doc else ConfigDoc.empty
    | none => doc

/-- `save_config(config)` from src/fycus/config.py: create the config
directory (with parents) and overwrite the config file with the
document. -/
def save_config (fs : FS) (doc : ConfigDoc) : FS :=
  { fs.mkdirParents fs.configDir with configFile := .parsed doc }

/-- `get_base_path()` from src/fycus/config.py: the loaded document's
`base_path` when it exists on disk, otherwise `None`. -/
def get_base_path (fs : FS) : Option FPath :=
  let config := load_config fs
  match config.base_path with
  | some p => if fs.pathExists p then some p else none
  | none => none

/-- The matplotlib boundary: the size (in inches) of the currently
active figure, and the rcParams default size a fresh figure receives
after `plt.close`. -/
structure Mpl where
  figsize : ℚ × ℚ
  rcDefault : ℚ × ℚ
deriving DecidableEq

/-- The `Fycus` object state from src/fycus/fycus.py. -/
structure Fycus where
  extension : String
  sizeQQ : ℚ × ℚ
  sizeQT : ℚ × ℚ
  sizeQH : ℚ × ℚ
  sizeFQ : ℚ × ℚ
  page_width : ℚ
  size_set : Bool
  save_dir : FPath
deriving DecidableEq

/-- `Fycus.__init__`: resolve the base directory (constructor argument,
else configured path, else the working directory), join the name, and
create the save directory with its parents. -/
def Fycus.init (fs : FS) (name : String) (base_path : Option FPath)
    (extension : String) (width : ℚ) : Fycus × FS :=
  let base :=
    match base_path with
    | some p => p
    | none =>
      match get_base_path fs with
      | some c => c
      | none => fs.cwd
  let save_dir := base.child name
  let F : Fycus :=
    { extension := extension
      sizeQQ := (width / 4, width / 4)
      sizeQT := (width / 3, width / 4)
      sizeQH := (width / 2, width / 4)
      sizeFQ := (width / 4, width / 5)
      page_width := width
      size_set := false
      save_dir := save_dir }
  (F, fs.mkdirParents save_dir)

/-- `Fycus.FQ`: resize the current figure to the fifth-quarter preset. -/
def Fycus.FQ (F : Fycus) (m : Mpl) : Fycus × Mpl :=
  ({ F with size_set := true }, { m with figsize := F.sizeFQ })

/-- `Fycus.QQ`: resize the current figure to the quarter-square preset. -/
def Fycus.QQ (F : Fycus) (m : Mpl) : Fycus × Mpl :=
  ({ F with size_set := true }, { m with figsize := F.sizeQQ })

/-- `Fycus.QT`: resize the current figure to the quarter-third preset. -/
def Fycus.QT (F : Fycus) (m : Mpl) : Fycus × Mpl :=
  ({ F with size_set := true }, { m with figsize := F.sizeQT })

/-- `Fycus.QH`: resize the current figure to the quarter-half preset. -/
def Fycus.QH (F : Fycus) (m : Mpl) : Fycus × Mpl :=
  ({ F with size_set := true }, { m with figsize := F.sizeQH })

/-- `Fycus.XX(height, width)`: resize the current figure to the given
fractions of `page_width`. -/
def Fycus.XX (F : Fycus) (m : Mpl) (height width : ℚ) : Fycus × Mpl :=
  ({ F with size_set := true },
   { m with figsize := (width * F.page_width, height * F.page_width) })

/-- The arguments `fig.savefig` receives: output path, dpi, keyword
parameters, the resolved format string (the local `extension` variable
of `save`), and the size of the figure at the moment of export. -/
structure SaveCall where
  path : FPath
  dpi : ℚ
  params : List (String × String)
  fmt : String
  figsize : ℚ × ℚ
deriving DecidableEq

/-- The outcome of `Fycus.save`: the updated object, the matplotlib
state after `plt.close`, the recorded export call, and the value the
method returns. -/
structure SaveResult where
  fycus : Fycus
  mpl : Mpl
  call : SaveCall
  ret : FPath
deriving DecidableEq

/-- `dict.update(kwargs)`: caller-supplied keys override, key for key. -/
def dictUpdate (base kwargs : List (String × String)) :
    List (String × String) :=
  base.filter (fun kv => ¬ kwargs.any (fun kv2 => kv2.1 == kv.1)) ++ kwargs

/-- Python `str.split('.')` over the character list: the segments
between dots, with empty segments kept, and `[[]]` for the empty
string. -/
def splitDot : List Char → List (List Char)
  | [] => [[]]
  | c :: rest =>
    if c = '.' then [] :: splitDot rest
    else
      match splitDot rest with
      | [] => [[c]]
      | h :: t => (c :: h) :: t

/-- `filename.split('.')[-1]`: the piece after the last dot
(`splitDot` never yields an empty list, so the default is unused). -/
def lastSplitDot (s : String) : String :=
  String.mk ((splitDot s.data).getLastD [])

/-- Python `'.' in filename` for the one-character needle: membership
of the dot among the characters. -/
def containsDot (s : String) : Bool :=
  s.data.contains '.'

/-- The filename and format resolution at the top of `Fycus.save`: when
`filename` has no dot, append `.{self.extension}` and use the configured
extension as the format; otherwise use `filename` verbatim and take the
piece after the last dot (`filename.split('.')[-1]`) as the format. -/
def Fycus.resolveFilename (F : Fycus) (filename : String) : String × String :=
  if containsDot filename then
    (filename, lastSplitDot filename)
  else
    (filename ++ "." ++ F.extension, F.extension)

/-- `Fycus.save(filename, dpi=None, **kwargs)` from src/fycus/fycus.py:
append the configured extension when `filename` has no dot, else take
the piece after the last dot as the format; default dpi 100 for svg and
300 otherwise; format-specific save parameters; apply the quarter-square
preset when no preset was ever applied; merge caller parameters over the
defaults; export, close the figure, and return the output path. -/
def Fycus.save (F : Fycus) (m : Mpl) (filename : String)
    (dpi : Option ℚ) (kwargs : List (String × String)) : SaveResult :=
  let fe := F.resolveFilename filename
  let filename := fe.1
  let extension := fe.2
  let output_path := F.save_dir.child filename
  let dpi :=
    match dpi with
    | some d => d
    | none => if extension == "svg" then (100 : ℚ) else 300
  let save_params : List (String × String) :=
    if extension == "svg" then
      [("format", extension), ("bbox_inches", "tight"),
       ("pad_inches", "0.1"), ("edgecolor", "none")]
    else if extension == "png" then
      [("format", extension), ("bbox_inches", "tight"),
       ("facecolor", "white"), ("edgecolor", "none")]
    else
      [("format", extension)]
  let FM := if F.size_set then (F, m) else F.QQ m
  let save_params := dictUpdate save_params kwargs
  let call : SaveCall :=
    { path := output_path, dpi := dpi, params := save_params
      fmt := extension, figsize := FM.2.figsize }
  { fycus := FM.1
    mpl := { FM.2 with figsize := FM.2.rcDefault }
    call := call
    ret := output_path }

/-- A sample manager as `Fycus('figs', base_path='/out')` with default
extension "svg" and width 7 builds it, before any preset call. -/
def sampleF : Fycus :=
  ⟨"svg", (7/4, 7/4), (7/3, 7/4), (7/2, 7/4), (7/4, 7/5), 7, false,
    ⟨true, ["out"]⟩⟩

/-- The sample manager after a preset has been applied. -/
def sampleFset : Fycus := { sampleF with size_set := true }

/-- A sample matplotlib state: some current figure size and the
rcParams default size. -/
def sampleM : Mpl := ⟨(3, 2), (32/5, 24/5)⟩

/-- A sample filesystem: absolute working directory, one existing data
directory which the parsed configuration file points at. -/
def sampleFS : FS :=
  ⟨⟨true, ["home"]⟩, [⟨true, ["data"]⟩],
    .parsed ⟨some ⟨true, ["data"]⟩, []⟩, ⟨true, ["cfg"]⟩⟩

theorem FPath.self_mem_ancestors (p : FPath) : p ∈ p.ancestors := by
  refine List.mem_map.2 ⟨p.parts.length, List.mem_range.2 (Nat.lt_succ_self _), ?_⟩
  simp [List.take_length]

theorem FPath.parent_mem_child_ancestors (p : FPath) (s : String) :
    p ∈ FPath.ancestors (p.child s) := by
  refine List.mem_map.2 ⟨p.parts.length, List.mem_range.2 ?_, ?_⟩
  · simp [FPath.child]
    omega
  · show (⟨p.isAbs, (p.parts ++ [s]).take p.parts.length⟩ : FPath) = p
    rw [List.take_left]

theorem FS.resolve_child (fs : FS) (p : FPath) (s : String) :
    fs.resolve (p.child s) = (fs.resolve p).child s := by
  unfold FS.resolve FPath.child
  by_cases h : p.isAbs <;> simp [h]

theorem FS.mkdirParents_cwd (fs : FS) (p : FPath) :
    (fs.mkdirParents p).cwd = fs.cwd := rfl

theorem FS.resolve_mkdirParents (fs : FS) (p q : FPath) :
    (fs.mkdirParents q).resolve p = fs.resolve p := rfl

theorem FS.pathExists_mkdirParents_of_exists (fs : FS) (p q : FPath)
    (h : fs.pathExists p = true) : (fs.mkdirParents q).pathExists p = true := by
  unfold FS.pathExists at *
  rw [decide_eq_true_eq] at *
  rw [FS.resolve_mkdirParents]
  exact List.mem_append.2 (Or.inl h)

theorem FS.pathExists_mkdirParents_self (fs : FS) (p : FPath) :
    (fs.mkdirParents p).pathExists p = true := by
  unfold FS.pathExists
  rw [decide_eq_true_eq, FS.resolve_mkdirParents]
  exact List.mem_append.2 (Or.inr (FPath.self_mem_ancestors _))

theorem FS.pathExists_mkdirParents_parent (fs : FS) (p : FPath) (s : String) :
    (fs.mkdirParents (p.child s)).pathExists p = true := by
  unfold FS.pathExists
  rw [decide_eq_true_eq, FS.resolve_mkdirParents]
  show fs.resolve p ∈ fs.dirs ++ FPath.ancestors (fs.resolve (p.child s))
  rw [FS.resolve_child]
  exact List.mem_append.2 (Or.inr (FPath.parent_mem_child_ancestors _ s))

/-- C1: the effective base directory of a constructed manager follows
the three-tier priority: an explicit `base_path` argument is used
as-is; otherwise a path configured in the config store is used;
otherwise the current working directory is used.  In each case
`save_dir` is that base joined with `name`. -/
theorem C1_base_directory_priority (fs : FS) (name e : String) (width : ℚ) :
    (∀ p : FPath,
      (Fycus.init fs name (some p) e width).1.save_dir = p.child name) ∧
    (∀ c : FPath, get_base_path fs = some c →
      (Fycus.init fs name none e width).1.save_dir = c.child name) ∧
    (get_base_path fs = none →
      (Fycus.init fs name none e width).1.save_dir = fs.cwd.child name) := by
  refine ⟨fun p => rfl, fun c h => ?_, fun h => ?_⟩ <;> simp [Fycus.init, h]

/-- Witness for C1: with a configured (and existing) base `/data`, a
manager built without an explicit argument saves under `/data/figs`. -/
theorem C1_base_directory_priority_witness :
    (Fycus.init sampleFS "figs" none "svg" 7).1.save_dir
      = FPath.child ⟨true, ["data"]⟩ "figs" := by
  exact (C1_base_directory_priority sampleFS "figs" "svg" 7).2.1
    ⟨true, ["data"]⟩ (by decide)

/-- C2: constructing a manager over an existing `base_path` creates
`base_path/name` — it exists afterwards (with its parent), whether or
not it pre-existed, and construction is a total operation (no error on
a pre-existing directory). -/
theorem C2_save_dir_created (fs : FS) (bp : FPath) (name e : String)
    (width : ℚ) (h : fs.pathExists bp = true) :
    (Fycus.init fs name (some bp) e width).2.pathExists
      (Fycus.init fs name (some bp) e width).1.save_dir = true ∧
    (Fycus.init fs name (some bp) e width).2.pathExists bp = true := by
  exact ⟨FS.pathExists_mkdirParents_self fs (bp.child name),
         FS.pathExists_mkdirParents_parent fs bp name⟩

/-- Witness for C2: building over the existing `/base` directory, where
`/base/figs` also already pre-exists, leaves `/base/figs` existing. -/
theorem C2_save_dir_created_witness :
    ((Fycus.init ⟨⟨true, ["home"]⟩, [⟨true, ["base"]⟩, ⟨true, ["base", "figs"]⟩],
        .absent, ⟨true, ["cfg"]⟩⟩ "figs" (some ⟨true, ["base"]⟩) "svg" 7).2.pathExists
      (Fycus.init ⟨⟨true, ["home"]⟩, [⟨true, ["base"]⟩, ⟨true, ["base", "figs"]⟩],
        .absent, ⟨true, ["cfg"]⟩⟩ "figs" (some ⟨true, ["base"]⟩) "svg" 7).1.save_dir
        = true) ∧
    ((Fycus.init ⟨⟨true, ["home"]⟩, [⟨true, ["base"]⟩, ⟨true, ["base", "figs"]⟩],
        .absent, ⟨true, ["cfg"]⟩⟩ "figs" (some ⟨true, ["base"]⟩) "svg" 7).2.pathExists
      ⟨true, ["base"]⟩ = true) := by
  exact C2_save_dir_created _ ⟨true, ["base"]⟩ "figs" "svg" 7 (by decide)

/-- C3: `save` appends `.{extension}` when the filename has no dot (so
the output path is `save_dir/filename.extension` and the format is the
configured extension), and uses a dotted filename verbatim with the
piece after the last dot as the export format; the returned value is
that output path. -/
theorem C3_filename_and_format (F : Fycus) (m : Mpl) (filename : String)
    (dpi : Option ℚ) (kwargs : List (String × String)) :
    (containsDot filename = false →
      (F.save m filename dpi kwargs).call.path
          = F.save_dir.child (filename ++ "." ++ F.extension) ∧
      (F.save m filename dpi kwargs).call.fmt = F.extension ∧
      (F.save m filename dpi kwargs).ret
          = F.save_dir.child (filename ++ "." ++ F.extension)) ∧
    (containsDot filename = true →
      (F.save m filename dpi kwargs).call.path = F.save_dir.child filename ∧
      (F.save m filename dpi kwargs).call.fmt = lastSplitDot filename ∧
      (F.save m filename dpi kwargs).ret = F.save_dir.child filename) := by
  constructor <;> intro h <;>
    simp [Fycus.save, Fycus.resolveFilename, h]

/-- Witness for C3: `save("plot")` with default extension "svg" targets
`/out/plot.svg`; `save("plot.png")` targets `/out/plot.png` with format
"png". -/
theorem C3_filename_and_format_witness :
    ((sampleF.save sampleM "plot" none []).call.path
        = FPath.child ⟨true, ["out"]⟩ "plot.svg" ∧
      (sampleF.save sampleM "plot.png" none []).call.path
        = FPath.child ⟨true, ["out"]⟩ "plot.png" ∧
      (sampleF.save sampleM "plot.png" none []).call.fmt = "png") := by
  refine ⟨?_, ?_, ?_⟩
  · have h := ((C3_filename_and_format sampleF sampleM "plot" none []).1
      (by decide)).1
    simpa using h
  · exact ((C3_filename_and_format sampleF sampleM "plot.png" none []).2
      (by decide)).1
  · have h := ((C3_filename_and_format sampleF sampleM "plot.png" none []).2
      (by decide)).2.1
    simpa using h

/-- C4: when the caller passes no dpi, `save` exports at dpi 100 when
the resolved format is "svg" and at dpi 300 for every other format;
a caller-supplied dpi is used instead. -/
theorem C4_default_dpi (F : Fycus) (m : Mpl) (filename : String)
    (kwargs : List (String × String)) (d : ℚ) :
    ((F.save m filename none kwargs).call.fmt = "svg" →
      (F.save m filename none kwargs).call.dpi = 100) ∧
    ((F.save m filename none kwargs).call.fmt ≠ "svg" →
      (F.save m filename none kwargs).call.dpi = 300) ∧
    (F.save m filename (some d) kwargs).call.dpi = d := by
  have hfmt : (F.save m filename none kwargs).call.fmt
      = (F.resolveFilename filename).2 := rfl
  have hdpi : (F.save m filename none kwargs).call.dpi
      = if (F.resolveFilename filename).2 == "svg" then 100 else 300 := rfl
  refine ⟨fun h => ?_, fun h => ?_, rfl⟩
  · rw [hfmt] at h
    rw [hdpi, h]
    simp
  · rw [hfmt] at h
    rw [hdpi, if_neg]
    simp [h]

/-- Witness for C4: with configured extension "svg", `save("plot")`
exports at dpi 100, `save("plot.png")` at dpi 300, and an explicit
dpi of 42 wins. -/
theorem C4_default_dpi_witness :
    (sampleF.save sampleM "plot" none []).call.dpi = 100 ∧
    (sampleF.save sampleM "plot.png" none []).call.dpi = 300 ∧
    (sampleF.save sampleM "plot.pdf" (some 42) []).call.dpi = 42 := by
  refine ⟨?_, ?_, ?_⟩
  · exact (C4_default_dpi sampleF sampleM "plot" [] 42).1 (by decide)
  · exact (C4_default_dpi sampleF sampleM "plot.png" [] 42).2.1 (by decide)
  · exact (C4_default_dpi sampleF sampleM "plot.pdf" [] 42).2.2

/-- C5: on a manager whose `size_set` flag is still false, `save`
applies the quarter-square preset before exporting, so the figure is
exported at the manager's quarter-square size; for a freshly
constructed manager of width `w` that size is `(w/4, w/4)`. -/
theorem C5_default_quarter_square (F : Fycus) (m : Mpl)
    (fs : FS) (name e : String) (bp : Option FPath) (width : ℚ)
    (filename : String) (dpi : Option ℚ) (kwargs : List (String × String))
    (hF : F.size_set = false) :
    (F.save m filename dpi kwargs).call.figsize = F.sizeQQ ∧
    ((Fycus.init fs name bp e width).1.save m filename dpi kwargs).call.figsize
      = (width / 4, width / 4) := by
  constructor
  · simp [Fycus.save, Fycus.QQ, hF]
  · simp [Fycus.init, Fycus.save, Fycus.QQ]

/-- Witness for C5: saving on the sample manager (no preset ever
applied, width 7) exports the figure at the quarter-square size
`(7/4, 7/4)`. -/
theorem C5_default_quarter_square_witness :
    (sampleF.save sampleM "plot" none []).call.figsize = sampleF.sizeQQ ∧
    ((Fycus.init sampleFS "figs" none "svg" 7).1.save sampleM "plot" none
      []).call.figsize = (7 / 4, 7 / 4) := by
  exact C5_default_quarter_square sampleF sampleM sampleFS "figs" "svg" none 7
    "plot" none [] rfl

/-- Counterexample to C6: with an absolute working directory `/home`
and an existing relative directory `rel` passed as `base_path`, the
constructed `save_dir` is a relative path, and the value `save`
returns is a relative path too — not the absolute output path the
claim asserts. -/
theorem C6_counterexample :
    (FS.pathExists
        ⟨⟨true, ["home"]⟩, [⟨true, ["home", "rel"]⟩], .absent, ⟨true, ["cfg"]⟩⟩
        ⟨false, ["rel"]⟩ = true) ∧
    ((Fycus.init
        ⟨⟨true, ["home"]⟩, [⟨true, ["home", "rel"]⟩], .absent, ⟨true, ["cfg"]⟩⟩
        "figs" (some ⟨false, ["rel"]⟩) "svg" 7).1.save_dir.isAbs = false) ∧
    (((Fycus.init
        ⟨⟨true, ["home"]⟩, [⟨true, ["home", "rel"]⟩], .absent, ⟨true, ["cfg"]⟩⟩
        "figs" (some ⟨false, ["rel"]⟩) "svg" 7).1.save sampleM "plot" none
        []).ret.isAbs = false) := by
  exact ⟨by decide, by decide, by decide⟩

/-- C6 as amended: `save` returns the path `save_dir/filename` it
exported to, and that path is absolute exactly when `save_dir` is;
`save_dir` inherits absoluteness from the effective base directory —
an explicit `base_path` argument is used as-is (a relative argument
yields a relative `save_dir`), while the current-working-directory
fallback yields an absolute `save_dir` whenever the process working
directory is absolute. -/
theorem C6_returned_path_absoluteness (fs : FS) (name e : String)
    (width : ℚ) (bp : FPath) (F : Fycus) (m : Mpl) (filename : String)
    (dpi : Option ℚ) (kwargs : List (String × String))
    (hcwd : fs.cwd.isAbs = true) :
    (F.save m filename dpi kwargs).ret
        = (F.save m filename dpi kwargs).call.path ∧
    (F.save m filename dpi kwargs).ret.isAbs = F.save_dir.isAbs ∧
    (Fycus.init fs name (some bp) e width).1.save_dir.isAbs = bp.isAbs ∧
    (get_base_path fs = none →
      (Fycus.init fs name none e width).1.save_dir.isAbs = true) := by
  refine ⟨rfl, rfl, rfl, fun h => ?_⟩
  simp [Fycus.init, h, FPath.child, hcwd]

/-- Witness for C6 as amended: with no configuration file and absolute
working directory `/home`, the cwd-fallback manager has an absolute
`save_dir`, and a save on the sample manager returns the export
path. -/
theorem C6_returned_path_absoluteness_witness :
    ((sampleF.save sampleM "plot" none []).ret
        = (sampleF.save sampleM "plot" none []).call.path) ∧
    ((Fycus.init ⟨⟨true, ["home"]⟩, [], .absent, ⟨true, ["cfg"]⟩⟩
        "figs" none "svg" 7).1.save_dir.isAbs = true) := by
  have h := C6_returned_path_absoluteness
    ⟨⟨true, ["home"]⟩, [], .absent, ⟨true, ["cfg"]⟩⟩ "figs" "svg" 7
    ⟨true, ["x"]⟩ sampleF sampleM "plot" none [] (by decide)
  exact ⟨h.1, h.2.2.2 (by decide)⟩

/-- C7: `load_config` is total (never raises) and returns the empty
mapping when the config file is absent, unreadable or malformed, and
also — dropping every key, not just `base_path` — when the parsed
document's `base_path` names a path that does not exist; being a pure
function of the filesystem state, it leaves the file on disk
unchanged. -/
theorem C7_load_config_failures (fs : FS) (doc : ConfigDoc) (p : FPath) :
    (fs.configFile = .absent → load_config fs = ConfigDoc.empty) ∧
    (fs.configFile = .unreadable → load_config fs = ConfigDoc.empty) ∧
    (fs.configFile = .malformed → load_config fs = ConfigDoc.empty) ∧
    (fs.configFile = .parsed doc → doc.base_path = some p →
      fs.pathExists p = false → load_config fs = ConfigDoc.empty) := by
  refine ⟨fun h => ?_, fun h => ?_, fun h => ?_, fun h hb hp => ?_⟩ <;>
    simp [load_config, h]
  simp [hb, hp]

/-- Witness for C7: a parsed config with an extra key and a
`base_path` pointing at the missing `/gone` loads as the empty
mapping (the extra key is dropped too). -/
theorem C7_load_config_failures_witness :
    load_config ⟨⟨true, ["home"]⟩, [],
        .parsed ⟨some ⟨true, ["gone"]⟩, [("k", "v")]⟩, ⟨true, ["cfg"]⟩⟩
      = ConfigDoc.empty := by
  exact (C7_load_config_failures _ ⟨some ⟨true, ["gone"]⟩, [("k", "v")]⟩
    ⟨true, ["gone"]⟩).2.2.2 rfl rfl (by decide)

/-- C8: `get_base_path` is total (never raises) and returns `none` on
every failure mode: config file absent, unreadable or malformed,
`base_path` key absent, or stored path not existing on disk. -/
theorem C8_get_base_path_failures (fs : FS) (doc : ConfigDoc) (p : FPath) :
    (fs.configFile = .absent → get_base_path fs = none) ∧
    (fs.configFile = .unreadable → get_base_path fs = none) ∧
    (fs.configFile = .malformed → get_base_path fs = none) ∧
    (fs.configFile = .parsed doc → doc.base_path = none →
      get_base_path fs = none) ∧
    (fs.configFile = .parsed doc → doc.base_path = some p →
      fs.pathExists p = false → get_base_path fs = none) := by
  refine ⟨fun h => ?_, fun h => ?_, fun h => ?_, fun h hb => ?_,
    fun h hb hp => ?_⟩ <;>
      simp [get_base_path, load_config, h, ConfigDoc.empty]
  · simp [hb]
  · simp [hb, hp, ConfigDoc.empty]

/-- Witness for C8: a stored `base_path` pointing at the non-existent
`/gone` makes `get_base_path` return `none`. -/
theorem C8_get_base_path_failures_witness :
    get_base_path ⟨⟨true, ["home"]⟩, [],
        .parsed ⟨some ⟨true, ["gone"]⟩, []⟩, ⟨true, ["cfg"]⟩⟩ = none := by
  exact (C8_get_base_path_failures _ ⟨some ⟨true, ["gone"]⟩, []⟩
    ⟨true, ["gone"]⟩).2.2.2.2 rfl rfl (by decide)

/-- C9: persist-then-reload round-trips `base_path`: for any
configuration document whose `base_path` names an existing directory,
`save_config` followed by `load_config` yields that same
`base_path`. -/
theorem C9_save_load_roundtrip (fs : FS) (doc : ConfigDoc) (p : FPath)
    (hb : doc.base_path = some p) (he : fs.pathExists p = true) :
    (load_config (save_config fs doc)).base_path = some p := by
  have he2 : (save_config fs doc).pathExists p = true :=
    FS.pathExists_mkdirParents_of_exists fs p fs.configDir he
  show (match doc.base_path with
    | some q =>
      if (save_config fs doc).pathExists q then doc else ConfigDoc.empty
    | none => doc).base_path = some p
  rw [hb]
  simp [he2, hb]

/-- Witness for C9: saving a document whose `base_path` is the
existing `/data` directory and loading it back returns `/data`. -/
theorem C9_save_load_roundtrip_witness :
    (load_config (save_config sampleFS ⟨some ⟨true, ["data"]⟩, []⟩)).base_path
      = some ⟨true, ["data"]⟩ := by
  exact C9_save_load_roundtrip sampleFS ⟨some ⟨true, ["data"]⟩, []⟩
    ⟨true, ["data"]⟩ rfl (by decide)

/-- C10: the `size_set` flag is monotone: a freshly constructed
manager has it false, each of FQ, QQ, QT, QH, XX sets it true, `save`
always leaves it true (the first save on a preset-less manager sets it
via the default quarter-square call), and no operation resets it; once
it is true, `save` exports the current figure at whatever size it
already has. -/
theorem C10_size_set_monotone (fs : FS) (name e : String)
    (bp : Option FPath) (width : ℚ) (F : Fycus) (m : Mpl) (hf wf : ℚ)
    (filename : String) (dpi : Option ℚ)
    (kwargs : List (String × String)) :
    (Fycus.init fs name bp e width).1.size_set = false ∧
    (F.FQ m).1.size_set = true ∧
    (F.QQ m).1.size_set = true ∧
    (F.QT m).1.size_set = true ∧
    (F.QH m).1.size_set = true ∧
    (F.XX m hf wf).1.size_set = true ∧
    (F.save m filename dpi kwargs).fycus.size_set = true ∧
    (F.size_set = true →
      (F.save m filename dpi kwargs).call.figsize = m.figsize) := by
  refine ⟨rfl, rfl, rfl, rfl, rfl, rfl, ?_, fun h => ?_⟩
  · cases hs : F.size_set
    · simp [Fycus.save, Fycus.QQ, hs]
    · simp [Fycus.save, hs]
  · simp [Fycus.save, h]

/-- Witness for C10: a second save on a manager whose flag is already
true (here: after a preset) exports the figure at its current size,
the sample state's `(3, 2)`. -/
theorem C10_size_set_monotone_witness :
    (sampleFset.save sampleM "plot" none []).call.figsize
      = sampleM.figsize := by
  exact (C10_size_set_monotone sampleFS "figs" "svg" none 7 sampleFset
    sampleM 1 1 "plot" none []).2.2.2.2.2.2.2 rfl
